import Mathlib

/-!
# Bulk-operation engine of the task-management backend

Shallow embedding of `backend/bulk_operations.py` (the `BulkOperation`
record, `BulkOperationService` and its bulk-create / bulk-delete /
duplicate / undo paths) together with the status endpoint of
`backend/routers/bulk.py`.

Modelling conventions:
* Python unbounded `int` fields become `Int`; loop indices become `Nat`.
* `datetime.utcnow()` values are abstract clock ticks (`Nat`), threaded as
  a `now` argument; `isoformat` serialisation is the identity on ticks.
* `uuid4` operation ids are modelled by a fresh-`Nat` counter
  (`next_op_id`); the only property the source uses is freshness.
* The KV cache mirror (`cache_service.set`/`get`) and the search-cache
  invalidations are fire-and-forget effects with no influence on the
  engine's state and are omitted; `get_operation_status` is modelled by
  its in-memory path (the memory map is always hit first and the bulk
  call paths only query operations they just created there).
* The `float` arithmetic of `progress_percentage` is modelled exactly
  over `ℚ` (all values that arise are exactly representable relations of
  small integers; rounding preserves the order and interval facts used).
* SQLAlchemy session effects are pure state passing: `flush` assigns the
  autoincrement id, `commit` publishes the working store, `rollback`
  restores the entry store.

Everything lives in the `TodoBulk` namespace (`Task` would otherwise
collide with the core library).
-/

namespace TodoBulk

/-- `BulkOperationType` enum of `bulk_operations.py`. -/
inductive BulkOperationType
  | create
  | update
  | delete
  | status_change
  | priority_change
  | reorder
  | duplicate
  | archive
  deriving DecidableEq, Repr

/-- `OperationStatus` enum of `bulk_operations.py`. -/
inductive OperationStatus
  | pending
  | running
  | completed
  | failed
  | cancelled
  deriving DecidableEq, Repr

/-- A row of the `tasks` table (the fields touched by the bulk engine). -/
structure Task where
  id : Int
  user_id : Int
  title : String
  description : Option String
  completed : Bool
  priority : String
  due_date : Option Nat
  created_at : Nat
  updated_at : Nat
  deriving DecidableEq, Repr

/-- The per-task dict captured by `bulk_delete_tasks` for undo data
(keys `id, title, description, completed, priority, due_date, user_id,
created_at, updated_at`). -/
structure TaskSnapshot where
  id : Int
  title : String
  description : Option String
  completed : Bool
  priority : String
  due_date : Option Nat
  user_id : Int
  created_at : Nat
  updated_at : Nat
  deriving DecidableEq, Repr

/-- The per-task dict captured by `bulk_update_tasks` for undo data
(keys `id, title, description, completed, priority, due_date,
updated_at`). -/
structure UpdateSnapshot where
  id : Int
  title : String
  description : Option String
  completed : Bool
  priority : String
  due_date : Option Nat
  updated_at : Nat
  deriving DecidableEq, Repr

/-- The `undo_data` dicts produced by the bulk paths: `bulk_create_tasks`
stores `{"operation": "delete", "task_ids": [...]}`, `bulk_delete_tasks`
stores `{"operation": "create", "tasks": [...]}`, `bulk_update_tasks`
stores `{"operation": "update", "tasks": [...]}`. -/
inductive UndoData
  | deleteIds (task_ids : List Int)
  | createTasks (tasks : List TaskSnapshot)
  | updateTasks (tasks : List UpdateSnapshot)
  deriving DecidableEq, Repr

/-- The `BulkOperation` dataclass. `created_at` is always set by
`__post_init__`, so it is a plain tick here. -/
structure BulkOperation where
  id : Nat
  user_id : Int
  operation_type : BulkOperationType
  status : OperationStatus
  total_items : Int
  processed_items : Int := 0
  failed_items : Int := 0
  created_at : Nat
  started_at : Option Nat := none
  completed_at : Option Nat := none
  error_message : Option String := none
  undo_data : Option UndoData := none
  deriving DecidableEq, Repr

/-- Python truthiness of an optional string: `None` and `""` are falsy.
This is the test `if error_message:` performs. -/
def pyTruthy : Option String → Bool
  | none => false
  | some s => !(s == "")

/-- The `progress_percentage` property: `100.0` when `total_items == 0`,
else `(processed_items / total_items) * 100.0`. -/
def BulkOperation.progress_percentage (op : BulkOperation) : ℚ :=
  if op.total_items = 0 then 100
  else ((op.processed_items : ℚ) / (op.total_items : ℚ)) * 100

/-- The `is_completed` property: status is one of
`COMPLETED`, `FAILED`, `CANCELLED`. -/
def BulkOperation.is_completed (op : BulkOperation) : Bool :=
  op.status == .completed || op.status == .failed || op.status == .cancelled

/-- Body of `BulkOperationService.update_operation_progress` applied to
the located record: `processed_items` and `failed_items` are assigned
unconditionally, then the status ladder runs (`if error_message: ...
elif processed >= total_items: ... elif status == PENDING: ...`). -/
def BulkOperation.applyProgress (op : BulkOperation) (now : Nat)
    (processed : Int) (failed : Int) (error_message : Option String) :
    BulkOperation :=
  let op := { op with processed_items := processed, failed_items := failed }
  if pyTruthy error_message then
    { op with error_message := error_message, status := .failed,
              completed_at := some now }
  else if op.total_items ≤ processed then
    { op with status := .completed, completed_at := some now }
  else if op.status = .pending then
    { op with status := .running, started_at := some now }
  else
    op

/-- The JSON body returned by `GET /bulk/status/{operation_id}`
(`get_operation_status` in `routers/bulk.py`), after the 404/403 guards
pass. -/
structure OperationStatusResponse where
  operation_id : Nat
  operation_type : BulkOperationType
  status : OperationStatus
  total_items : Int
  processed_items : Int
  failed_items : Int
  progress_percentage : ℚ
  created_at : Option Nat
  started_at : Option Nat
  completed_at : Option Nat
  error_message : Option String
  is_completed : Bool
  deriving DecidableEq, Repr

/-- The dict built by the status endpoint from the located operation
record (`... .isoformat() if ... else None` is the identity on ticks). -/
def get_operation_status_response (op : BulkOperation) :
    OperationStatusResponse :=
  { operation_id := op.id
    operation_type := op.operation_type
    status := op.status
    total_items := op.total_items
    processed_items := op.processed_items
    failed_items := op.failed_items
    progress_percentage := op.progress_percentage
    created_at := some op.created_at
    started_at := op.started_at
    completed_at := op.completed_at
    error_message := op.error_message
    is_completed := op.is_completed }

/-- Modelled from the spec: "`progress_percentage = processed_items /
total_items * 100`, defined as `100` when `total_items = 0`." Stated
separately from the source definition so the two can be compared. -/
def spec_progress_percentage (op : BulkOperation) : ℚ :=
  if op.total_items = 0 then 100
  else (op.processed_items : ℚ) / (op.total_items : ℚ) * 100

/-- The caller identity `(id, role)` the engine receives. -/
structure User where
  id : Int
  role : String
  deriving DecidableEq, Repr

/-- The relational task store: the `tasks` rows plus the autoincrement
counter that `db.flush()` draws fresh primary keys from. -/
structure TaskStore where
  tasks : List Task
  next_id : Int
  deriving DecidableEq, Repr

/-- In-memory state of `BulkOperationService`: `_active_operations`
(operation id → record; `none` models absence from the dict) and
`_undo_stack` (user id → list; the empty list models an absent key,
which every read site treats identically via `.get(user_id, [])`),
plus the fresh-id counter standing in for `uuid4`. -/
structure ServiceState where
  active_operations : Nat → Option BulkOperation
  undo_stack : Int → List BulkOperation
  next_op_id : Nat

/-- `self._max_undo_operations = 10`. -/
def max_undo_operations : Nat := 10

/-- `BulkOperationService.create_bulk_operation`: allocate a fresh id and
store a `PENDING` record with the given totals; returns the new state and
the operation id. -/
def ServiceState.create_bulk_operation (svc : ServiceState) (now : Nat)
    (user_id : Int) (operation_type : BulkOperationType)
    (total_items : Int) : ServiceState × Nat :=
  let operation_id := svc.next_op_id
  let operation : BulkOperation :=
    { id := operation_id, user_id := user_id,
      operation_type := operation_type, status := .pending,
      total_items := total_items, created_at := now }
  ({ svc with
      active_operations := fun i =>
        if i = operation_id then some operation
        else svc.active_operations i
      next_op_id := svc.next_op_id + 1 },
   operation_id)

/-- `BulkOperationService.update_operation_progress`: no-op when the id
is absent, otherwise rewrite the located record via
`BulkOperation.applyProgress`. -/
def ServiceState.update_operation_progress (svc : ServiceState)
    (now : Nat) (operation_id : Nat) (processed : Int) (failed : Int)
    (error_message : Option String) : ServiceState :=
  match svc.active_operations operation_id with
  | none => svc
  | some operation =>
    { svc with
      active_operations := fun i =>
        if i = operation_id then
          some (operation.applyProgress now processed failed error_message)
        else svc.active_operations i }

/-- `BulkOperationService.get_operation_status`, in-memory path. -/
def ServiceState.get_operation_status (svc : ServiceState)
    (operation_id : Nat) : Option BulkOperation :=
  svc.active_operations operation_id

/-- Core of `_add_to_undo_stack` on one user's list: `stack.append(op)`
then `if len(stack) > self._max_undo_operations: stack.pop(0)`. -/
def pushBounded (stack : List BulkOperation) (op : BulkOperation) :
    List BulkOperation :=
  let stack := stack ++ [op]
  if max_undo_operations < stack.length then stack.tail else stack

/-- `BulkOperationService._add_to_undo_stack`. -/
def ServiceState.add_to_undo_stack (svc : ServiceState) (user_id : Int)
    (operation : BulkOperation) : ServiceState :=
  { svc with
    undo_stack := fun u =>
      if u = user_id then pushBounded (svc.undo_stack u) operation
      else svc.undo_stack u }

/-- The caller-supplied payload of one task in a `bulk_create_tasks`
request (the fields of `tasks_data[i]` that end up on the `Task` row;
`user_id` is overwritten by the service before creation). -/
structure TaskData where
  title : String
  description : Option String := none
  completed : Bool := false
  priority : String := "medium"
  due_date : Option Nat := none
  deriving DecidableEq, Repr

/-- One element of `tasks_data` as the per-item `try` block sees it:
either a payload whose `Task(**task_data)` / `db.flush()` succeeds, or
an item whose creation raises, carrying the exception text `str(e)`. -/
inductive CreateItem
  | valid (d : TaskData)
  | invalid (errMsg : String)
  deriving DecidableEq, Repr

/-- Whether the per-item `try` block succeeds for this item. -/
def CreateItem.isValid : CreateItem → Bool
  | .valid _ => true
  | .invalid _ => false

/-- Number of items of the list whose creation raises. -/
def invalidCount (l : List CreateItem) : Nat :=
  (l.filter (fun i => !i.isValid)).length

/-- Accumulated state of the `for i, task_data in enumerate(tasks_data)`
loop of `bulk_create_tasks`: service map, working (uncommitted) store,
the `created_tasks` list, the `failed_items` counter and the enumerate
index `i` of the next item. -/
structure CreateLoopState where
  svc : ServiceState
  store : TaskStore
  created : List Task
  failed_items : Int
  idx : Nat

/-- One iteration of the `bulk_create_tasks` loop. On success:
`db.add`/`db.flush` (fresh id), append to `created_tasks`, then
`update_operation_progress(operation_id, i + 1, failed_items)`. On a
per-item exception: `failed_items += 1`, then
`update_operation_progress(operation_id, i + 1, failed_items, str(e))`,
and the loop continues. -/
def bulk_create_step (now : Nat) (uid : Int) (opId : Nat)
    (s : CreateLoopState) (item : CreateItem) : CreateLoopState :=
  match item with
  | .valid d =>
    let t : Task :=
      { id := s.store.next_id, user_id := uid, title := d.title,
        description := d.description, completed := d.completed,
        priority := d.priority, due_date := d.due_date,
        created_at := now, updated_at := now }
    { svc := s.svc.update_operation_progress now opId
        ((s.idx : Int) + 1) s.failed_items none
      store := { tasks := s.store.tasks ++ [t],
                 next_id := s.store.next_id + 1 }
      created := s.created ++ [t]
      failed_items := s.failed_items
      idx := s.idx + 1 }
  | .invalid msg =>
    { svc := s.svc.update_operation_progress now opId
        ((s.idx : Int) + 1) (s.failed_items + 1) (some msg)
      store := s.store
      created := s.created
      failed_items := s.failed_items + 1
      idx := s.idx + 1 }

/-- Result of a bulk call: final service state, final (committed or
rolled-back) store, and either the returned value or the re-raised
transaction-fatal exception text. -/
structure BulkCreateResult where
  svc : ServiceState
  store : TaskStore
  result : Except String (Nat × List Task)

/-- `BulkOperationService.bulk_create_tasks`. `commitError` injects a
transaction-fatal error at the `db.commit()` boundary (the per-item
`except` swallows everything raised inside the loop body, so the outer
`except` fires for commit/infrastructure failures): on `some msg` the
store rolls back to the entry state, the operation is reported with
`(0, len(tasks_data), str(e))` and the exception is re-raised. On the
success path the commit publishes the working store, the located record
gets `undo_data = {"operation": "delete", "task_ids": [...]}` (the same
mutated object sits in `_active_operations` and is pushed on the undo
stack), and `(operation_id, created_tasks)` is returned.

The call is split into named stages (`bulk_create_init_state`,
`bulk_create_final`, `bulk_create_tasks`) mirroring the source's loop
entry, loop exit and commit/except tail. -/
def bulk_create_init_state (svc : ServiceState) (store : TaskStore)
    (now : Nat) (user : User) (tasks_data : List CreateItem) :
    CreateLoopState :=
  let c := svc.create_bulk_operation now user.id .create
    (tasks_data.length : Int)
  { svc := c.1, store := store, created := [], failed_items := 0,
    idx := 0 }

/-- The loop-exit state of `bulk_create_tasks` (the whole
`for i, task_data in enumerate(tasks_data)` loop has run). -/
def bulk_create_final (svc : ServiceState) (store : TaskStore)
    (now : Nat) (user : User) (tasks_data : List CreateItem) :
    CreateLoopState :=
  tasks_data.foldl (bulk_create_step now user.id svc.next_op_id)
    (bulk_create_init_state svc store now user tasks_data)

def bulk_create_tasks (svc : ServiceState) (store : TaskStore) (now : Nat)
    (user : User) (tasks_data : List CreateItem)
    (commitError : Option String) : BulkCreateResult :=
  let opId := svc.next_op_id
  let final := bulk_create_final svc store now user tasks_data
  match commitError with
  | some msg =>
    { svc := final.svc.update_operation_progress now opId 0
        (tasks_data.length : Int) (some msg)
      store := store
      result := .error msg }
  | none =>
    match final.svc.get_operation_status opId with
    | some operation =>
      let operation := { operation with
        undo_data := some (.deleteIds (final.created.map (·.id))) }
      let svc2 := { final.svc with
        active_operations := fun i =>
          if i = opId then some operation
          else final.svc.active_operations i }
      { svc := svc2.add_to_undo_stack user.id operation
        store := final.store
        result := .ok (opId, final.created) }
    | none =>
      { svc := final.svc, store := final.store,
        result := .ok (opId, final.created) }

/-- The successive loop states of `bulk_create_tasks` (entry state first,
then the state after each item), used to state the trace properties of
the progress record. -/
def bulk_create_loop_states (svc : ServiceState) (store : TaskStore)
    (now : Nat) (user : User) (tasks_data : List CreateItem) :
    List CreateLoopState :=
  List.scanl (bulk_create_step now user.id svc.next_op_id)
    (bulk_create_init_state svc store now user tasks_data)
    tasks_data

/-- Placeholder record used only to totalise lookups in trace
definitions; every state of a bulk-create trace holds the operation, so
it is never reached. -/
def defaultOperation : BulkOperation :=
  { id := 0, user_id := 0, operation_type := .create, status := .pending,
    total_items := 0, created_at := 0 }

/-- The tracked record a loop state holds for the given operation id
(every reachable state holds it, so the default is never used). -/
def traceOp (opId : Nat) (s : CreateLoopState) : BulkOperation :=
  (s.svc.active_operations opId).getD defaultOperation

/-- The tracked operation record over the lifecycle of a
`bulk_create_tasks` call: its value at creation and after every progress
update of the item loop. -/
def bulk_create_op_trace (svc : ServiceState) (store : TaskStore)
    (now : Nat) (user : User) (tasks_data : List CreateItem) :
    List BulkOperation :=
  (bulk_create_loop_states svc store now user tasks_data).map
    (traceOp svc.next_op_id)

/-- Invariant tying a loop state of `bulk_create_tasks` to the list `p`
of items processed so far: the enumerate index, the failure counter, the
created rows, the working store and the tracked record's counters all
agree with `p`. -/
def CreateCounts (opId : Nat) (total : Int) (base : List Task)
    (p : List CreateItem) (s : CreateLoopState) : Prop :=
  s.idx = p.length ∧
  s.failed_items = (invalidCount p : Int) ∧
  s.created.length = (p.filter (·.isValid)).length ∧
  s.store.tasks = base ++ s.created ∧
  ∃ op : BulkOperation,
    s.svc.active_operations opId = some op ∧
    op.id = opId ∧
    op.total_items = total ∧
    op.processed_items = (p.length : Int) ∧
    op.failed_items = (invalidCount p : Int)

/-- The rows returned by the target query of `bulk_delete_tasks` /
`duplicate_tasks`: `db.query(Task).filter(Task.id.in_(task_ids))`,
narrowed to the caller's own rows unless `user.role == "admin"`. -/
def query_target_tasks (store : TaskStore) (user : User)
    (task_ids : List Int) : List Task :=
  store.tasks.filter (fun t =>
    task_ids.contains t.id &&
      (user.role == "admin" || t.user_id == user.id))

/-- The snapshot dict `bulk_delete_tasks` appends to `deleted_tasks`. -/
def snapshotOf (t : Task) : TaskSnapshot :=
  { id := t.id, title := t.title, description := t.description,
    completed := t.completed, priority := t.priority,
    due_date := t.due_date, user_id := t.user_id,
    created_at := t.created_at, updated_at := t.updated_at }

/-- Accumulated state of the deletion loop of `bulk_delete_tasks`. -/
structure DeleteLoopState where
  svc : ServiceState
  store : TaskStore
  deleted : List TaskSnapshot

/-- One iteration of the `bulk_delete_tasks` loop: capture the snapshot,
`db.delete(task)` (remove the row with that primary key from the working
store), then `update_operation_progress(operation_id,
len(deleted_tasks))`. -/
def bulk_delete_step (now : Nat) (opId : Nat) (s : DeleteLoopState)
    (task : Task) : DeleteLoopState :=
  let deleted := s.deleted ++ [snapshotOf task]
  { svc := s.svc.update_operation_progress now opId
      (deleted.length : Int) 0 none
    store := { s.store with
      tasks := s.store.tasks.filter (fun u => !(u.id == task.id)) }
    deleted := deleted }

/-- `BulkOperationService.bulk_delete_tasks`, non-exceptional path:
create the tracking record, delete every row matched by
`query_target_tasks`, commit, store
`undo_data = {"operation": "create", "tasks": deleted_tasks}` on the
located record and push it on the caller's undo stack; returns the new
service state, the committed store and the operation id. Split into the
loop-exit stage `bulk_delete_final` and the commit tail
`bulk_delete_tasks`. -/
def bulk_delete_final (svc : ServiceState) (store : TaskStore)
    (now : Nat) (user : User) (task_ids : List Int) : DeleteLoopState :=
  let c := svc.create_bulk_operation now user.id .delete
    (task_ids.length : Int)
  (query_target_tasks store user task_ids).foldl
    (bulk_delete_step now c.2)
    { svc := c.1, store := store, deleted := [] }

def bulk_delete_tasks (svc : ServiceState) (store : TaskStore)
    (now : Nat) (user : User) (task_ids : List Int) :
    ServiceState × TaskStore × Nat :=
  let opId := svc.next_op_id
  let final := bulk_delete_final svc store now user task_ids
  match final.svc.get_operation_status opId with
  | some operation =>
    let operation := { operation with
      undo_data := some (.createTasks final.deleted) }
    let svc2 := { final.svc with
      active_operations := fun i =>
        if i = opId then some operation
        else final.svc.active_operations i }
    (svc2.add_to_undo_stack user.id operation, final.store, opId)
  | none => (final.svc, final.store, opId)

/-- Accumulated state of the duplication loop of `duplicate_tasks`. -/
structure DupLoopState where
  svc : ServiceState
  store : TaskStore
  duplicated : List Task
  processed : Int

/-- One iteration of the `duplicate_tasks` loop: build the copy (title
plus suffix, caller as owner, `completed` forced to `False`),
`db.add`/`db.flush`, append to `duplicated_tasks`, `processed += 1`,
then `update_operation_progress(operation_id, processed)`. -/
def duplicate_step (now : Nat) (uid : Int) (suffix : String)
    (opId : Nat) (s : DupLoopState) (task : Task) : DupLoopState :=
  let t : Task :=
    { id := s.store.next_id, user_id := uid,
      title := task.title ++ suffix, description := task.description,
      completed := false, priority := task.priority,
      due_date := task.due_date, created_at := now, updated_at := now }
  { svc := s.svc.update_operation_progress now opId (s.processed + 1)
      0 none
    store := { tasks := s.store.tasks ++ [t],
               next_id := s.store.next_id + 1 }
    duplicated := s.duplicated ++ [t]
    processed := s.processed + 1 }

/-- `BulkOperationService.duplicate_tasks`, non-exceptional path: create
the tracking record, copy every row matched by `query_target_tasks`,
commit, and return `(operation_id, duplicated_tasks)`. The source stores
no undo data and never touches the undo stack on this path. -/
def duplicate_tasks (svc : ServiceState) (store : TaskStore) (now : Nat)
    (user : User) (task_ids : List Int) (suffix : String) :
    ServiceState × TaskStore × Nat × List Task :=
  let c := svc.create_bulk_operation now user.id .duplicate
    (task_ids.length : Int)
  let opId := c.2
  let matched := query_target_tasks store user task_ids
  let final := matched.foldl (duplicate_step now user.id suffix opId)
    { svc := c.1, store := store, duplicated := [], processed := 0 }
  (final.svc, final.store, opId, final.duplicated)

/-- Restore the captured fields of an update snapshot onto the first row
with the matching id (`db.query(Task).filter(Task.id ==
task_data["id"]).first()`, then `setattr` per captured key). -/
def updateFirstById (l : List Task) (snap : UpdateSnapshot) : List Task :=
  match l with
  | [] => []
  | t :: rest =>
    if t.id == snap.id then
      { t with title := snap.title, description := snap.description,
               completed := snap.completed, priority := snap.priority,
               due_date := snap.due_date,
               updated_at := snap.updated_at } :: rest
    else t :: updateFirstById rest snap

/-- The store mutation `undo_operation` performs for each recorded
`undo_data` kind: delete the created ids / recreate the deleted
snapshots under fresh ids (`task_data.pop("id", None)` before
`Task(**task_data)`) / restore the captured fields of the updated
rows. -/
def applyUndo (store : TaskStore) (ud : UndoData) : TaskStore :=
  match ud with
  | .deleteIds ids =>
    { store with tasks := store.tasks.filter (fun t =>
        !(ids.contains t.id)) }
  | .createTasks snaps =>
    snaps.foldl (fun st snap =>
      { tasks := st.tasks ++
          [{ id := st.next_id, user_id := snap.user_id,
             title := snap.title, description := snap.description,
             completed := snap.completed, priority := snap.priority,
             due_date := snap.due_date, created_at := snap.created_at,
             updated_at := snap.updated_at }]
        next_id := st.next_id + 1 }) store
  | .updateTasks snaps =>
    snaps.foldl (fun st snap =>
      { st with tasks := updateFirstById st.tasks snap }) store

/-- `BulkOperationService.undo_operation`: locate the record (by id, or
the most recent entry when no id is given) in the caller's stack, fail
when the stack is empty, the id is absent or the record has no
`undo_data`; otherwise apply the inverse mutation, commit, and remove
the record from the stack (`user_stack.remove(operation)` removes the
first equal element). The list-level store model cannot raise, so the
rollback-and-return-false branch of the source's `except` is not
reachable here. -/
def undo_operation (svc : ServiceState) (store : TaskStore) (user : User)
    (operation_id : Option Nat) : ServiceState × TaskStore × Bool :=
  let user_stack := svc.undo_stack user.id
  if user_stack.isEmpty then (svc, store, false)
  else
    let located : Option BulkOperation :=
      match operation_id with
      | some oid => user_stack.find? (fun op => op.id == oid)
      | none => user_stack.getLast?
    match located with
    | none => (svc, store, false)
    | some operation =>
      match operation.undo_data with
      | none => (svc, store, false)
      | some ud =>
        let store := applyUndo store ud
        let svc := { svc with
          undo_stack := fun u =>
            if u = user.id then (svc.undo_stack u).erase operation
            else svc.undo_stack u }
        (svc, store, true)

/-! ## Concrete scenarios used by witnesses and counterexamples -/

/-- A fresh `BulkOperationService()`. -/
def emptyService : ServiceState :=
  { active_operations := fun _ => none, undo_stack := fun _ => [],
    next_op_id := 0 }

/-- An empty task store. -/
def emptyStore : TaskStore := { tasks := [], next_id := 1 }

/-- A concrete non-admin caller. -/
def user7 : User := { id := 7, role := "user" }

/-- A concrete admin caller. -/
def admin1 : User := { id := 1, role := "admin" }

/-- A creation payload. -/
def sampleA : TaskData := { title := "A" }

/-- Another creation payload. -/
def sampleB : TaskData := { title := "B" }

/-- A row owned by `user7`. -/
def taskOwned : Task :=
  { id := 1, user_id := 7, title := "mine", description := none,
    completed := false, priority := "high", due_date := none,
    created_at := 0, updated_at := 0 }

/-- A row owned by somebody else (user 9). -/
def taskForeign : Task :=
  { id := 2, user_id := 9, title := "theirs", description := none,
    completed := false, priority := "low", due_date := none,
    created_at := 0, updated_at := 0 }

/-- A store holding one row of `user7` and one foreign row. -/
def storePair : TaskStore := { tasks := [taskOwned, taskForeign], next_id := 3 }

/-- An operation that already reached the terminal `Failed` state
(a two-item batch whose first item failed). -/
def opTerminalFailed : BulkOperation :=
  { id := 0, user_id := 7, operation_type := .create, status := .failed,
    total_items := 2, processed_items := 1, failed_items := 1,
    created_at := 0, completed_at := some 5, error_message := some "x" }

/-- A freshly created single-item operation (state right after
`create_bulk_operation`). -/
def opPendingOne : BulkOperation :=
  { id := 0, user_id := 7, operation_type := .create, status := .pending,
    total_items := 1, created_at := 0 }

/-- Eleven distinct undoable operations. -/
def elevenOps : List BulkOperation :=
  (List.range 11).map (fun k => { defaultOperation with id := k })

/-! ## Helper lemmas -/

theorem applyProgress_undo_data (op : BulkOperation) (now : Nat)
    (p f : Int) (e : Option String) :
    (op.applyProgress now p f e).undo_data = op.undo_data := by
  unfold BulkOperation.applyProgress
  dsimp only
  split
  · rfl
  · split
    · rfl
    · split <;> rfl

theorem applyProgress_fields (op : BulkOperation) (now : Nat)
    (p f : Int) (e : Option String) :
    (op.applyProgress now p f e).processed_items = p ∧
    (op.applyProgress now p f e).failed_items = f ∧
    (op.applyProgress now p f e).total_items = op.total_items ∧
    (op.applyProgress now p f e).id = op.id := by
  unfold BulkOperation.applyProgress
  dsimp only
  split
  · exact ⟨rfl, rfl, rfl, rfl⟩
  · split
    · exact ⟨rfl, rfl, rfl, rfl⟩
    · split <;> exact ⟨rfl, rfl, rfl, rfl⟩

theorem update_progress_undo_stack (svc : ServiceState) (now : Nat)
    (oid : Nat) (p f : Int) (e : Option String) :
    (svc.update_operation_progress now oid p f e).undo_stack
      = svc.undo_stack := by
  unfold ServiceState.update_operation_progress
  split <;> rfl

theorem update_progress_lookup (svc : ServiceState) (now : Nat)
    (oid : Nat) (p f : Int) (e : Option String) (op : BulkOperation)
    (h : svc.active_operations oid = some op) :
    (svc.update_operation_progress now oid p f e).active_operations oid
      = some (op.applyProgress now p f e) := by
  unfold ServiceState.update_operation_progress
  rw [h]
  simp

/-! ## Claim theorems -/

/-- C9: for every `BulkOperation`, `progress_percentage` equals
`processed_items / total_items * 100`, and is `100` whenever
`total_items = 0`, so a zero-item operation reports one hundred percent
immediately. -/
theorem c9_progress_percentage_formula (op : BulkOperation) :
    op.progress_percentage = spec_progress_percentage op ∧
    (op.total_items = 0 → op.progress_percentage = 100) := by
  refine ⟨rfl, fun h => ?_⟩
  simp [BulkOperation.progress_percentage, h]

/-- C9 witness: a concrete zero-item operation reports `100`. -/
theorem c9_progress_percentage_formula_witness :
    BulkOperation.progress_percentage
      { id := 0, user_id := 0, operation_type := .create,
        status := .pending, total_items := 0, created_at := 0 } = 100 :=
  (c9_progress_percentage_formula _).2 rfl

/-- C10: when the first progress update of a still-pending operation
already reports `processed ≥ total_items` with no error, the record
moves straight from `Pending` to `Completed`: `completed_at` is set but
`started_at` is never set and stays `null` in the status snapshot the
`GET /bulk/status` endpoint returns. -/
theorem c10_pending_straight_to_completed (op : BulkOperation)
    (now : Nat) (processed failed : Int)
    (_hp : op.status = .pending) (hs : op.started_at = none)
    (ht : op.total_items ≤ processed) :
    (op.applyProgress now processed failed none).status = .completed ∧
    (op.applyProgress now processed failed none).started_at = none ∧
    (op.applyProgress now processed failed none).completed_at
      = some now ∧
    (get_operation_status_response
      (op.applyProgress now processed failed none)).started_at
      = none := by
  have hstep : op.applyProgress now processed failed none =
      { op with processed_items := processed, failed_items := failed,
                status := .completed, completed_at := some now } := by
    unfold BulkOperation.applyProgress
    simp [pyTruthy, ht]
  rw [hstep]
  exact ⟨rfl, hs, rfl, hs⟩

/-- C10 witness: a concrete fresh one-item pending operation completes
directly on the update `processed = 1` with `started_at` still unset. -/
theorem c10_pending_straight_to_completed_witness :
    (opPendingOne.applyProgress 3 1 0 none).status = .completed ∧
    (opPendingOne.applyProgress 3 1 0 none).started_at = none ∧
    (opPendingOne.applyProgress 3 1 0 none).completed_at = some 3 ∧
    (get_operation_status_response
      (opPendingOne.applyProgress 3 1 0 none)).started_at = none :=
  c10_pending_straight_to_completed opPendingOne 3 1 0 rfl rfl
    (by decide)

/-- C1 counterexample: a progress update applied after the operation
reached the terminal `Failed` state is not a no-op — it overwrites
`processed_items` and even moves the status to `Completed`. -/
theorem c1_counterexample :
    opTerminalFailed.is_completed = true ∧
    opTerminalFailed.applyProgress 6 2 1 none ≠ opTerminalFailed ∧
    (opTerminalFailed.applyProgress 6 2 1 none).status = .completed ∧
    (opTerminalFailed.applyProgress 6 2 1 none).processed_items
      ≠ opTerminalFailed.processed_items := by
  decide

/-- C1 (amended): `update_operation_progress` has no terminal-state
guard, so a later update is not a no-op — it overwrites
`processed_items`/`failed_items`, refreshes `completed_at`, and can move
the record between terminal states (`Failed` becomes `Completed` when
the update reports `processed ≥ total_items` with no error). What does
hold is that the terminal set is closed — a terminal operation never
returns to `Pending` or `Running` — and that `started_at` never changes
after a terminal state is reached. -/
theorem c1_terminal_set_closed (op : BulkOperation) (now : Nat)
    (processed failed : Int) (msg : Option String)
    (h : op.is_completed = true) :
    (op.applyProgress now processed failed msg).is_completed = true ∧
    (op.applyProgress now processed failed msg).started_at
      = op.started_at := by
  have hs : op.status = .completed ∨ op.status = .failed ∨
      op.status = .cancelled := by
    simpa [BulkOperation.is_completed, or_assoc] using h
  have hnp : op.status ≠ .pending := by
    rcases hs with h1 | h1 | h1 <;> simp [h1]
  unfold BulkOperation.applyProgress
  dsimp only
  split_ifs with h1 h2
  · exact ⟨rfl, rfl⟩
  · exact ⟨rfl, rfl⟩
  · exact ⟨h, rfl⟩

/-- C1 amended-claim witness: the concrete terminal operation stays in
the terminal set with `started_at` untouched. -/
theorem c1_terminal_set_closed_witness :
    (opTerminalFailed.applyProgress 6 2 1 none).is_completed = true ∧
    (opTerminalFailed.applyProgress 6 2 1 none).started_at
      = opTerminalFailed.started_at :=
  c1_terminal_set_closed opTerminalFailed 6 2 1 none (by decide)

theorem pushBounded_small (stack : List BulkOperation)
    (op : BulkOperation)
    (h : stack.length + 1 ≤ max_undo_operations) :
    pushBounded stack op = stack ++ [op] := by
  unfold pushBounded
  rw [if_neg]
  simp
  omega

theorem foldl_pushBounded_full (ops : List BulkOperation) :
    ∀ s : List BulkOperation, ops ≠ [] →
    s.length + ops.length = max_undo_operations + 1 →
    ops.foldl pushBounded s = (s ++ ops).tail := by
  induction ops with
  | nil => intro s hne _; exact absurd rfl hne
  | cons a rest ih =>
    intro s _ hlen
    cases rest with
    | nil =>
      simp only [List.foldl_cons, List.foldl_nil]
      unfold pushBounded
      rw [if_pos]
      simp only [List.length_cons, List.length_nil] at hlen
      simp
      omega
    | cons b rest2 =>
      simp only [List.length_cons] at hlen
      simp only [List.foldl_cons]
      rw [pushBounded_small s a (by omega)]
      have h2 := ih (s ++ [a]) (by simp) (by simp; omega)
      simp only [List.foldl_cons] at h2
      rw [h2]
      simp

theorem foldl_add_to_undo_stack (ops : List BulkOperation) :
    ∀ (svc : ServiceState) (u : Int),
    ((ops.foldl (fun s op => s.add_to_undo_stack u op) svc).undo_stack u)
      = ops.foldl pushBounded (svc.undo_stack u) := by
  induction ops with
  | nil => intro svc u; rfl
  | cons a rest ih =>
    intro svc u
    simp only [List.foldl_cons]
    rw [ih]
    have : (svc.add_to_undo_stack u a).undo_stack u
        = pushBounded (svc.undo_stack u) a := by
      simp [ServiceState.add_to_undo_stack]
    rw [this]

/-- C5: a user's undo stack is capacity-bounded at ten entries — pushing
eleven undoable operations for one user (starting from an empty stack)
leaves exactly the last ten, in insertion order, with the oldest entry
evicted. -/
theorem c5_undo_stack_bound (svc : ServiceState) (u : Int)
    (ops : List BulkOperation) (h0 : svc.undo_stack u = [])
    (h11 : ops.length = 11) :
    ((ops.foldl (fun s op => s.add_to_undo_stack u op) svc).undo_stack u)
      = ops.tail ∧
    ((ops.foldl (fun s op =>
        s.add_to_undo_stack u op) svc).undo_stack u).length = 10 := by
  have hne : ops ≠ [] := by
    intro hempty; rw [hempty] at h11; simp at h11
  have h1 := foldl_add_to_undo_stack ops svc u
  rw [h0] at h1
  rw [h1, foldl_pushBounded_full ops [] hne
    (by simp [h11, max_undo_operations])]
  refine ⟨by simp, ?_⟩
  simp [List.length_tail, h11]

/-- C5 witness: pushing eleven concrete operations onto a fresh service
leaves the last ten in order. -/
theorem c5_undo_stack_bound_witness :
    ((elevenOps.foldl (fun s op =>
        s.add_to_undo_stack 7 op) emptyService).undo_stack 7)
      = elevenOps.tail ∧
    ((elevenOps.foldl (fun s op =>
        s.add_to_undo_stack 7 op) emptyService).undo_stack 7).length
      = 10 :=
  c5_undo_stack_bound emptyService 7 elevenOps rfl (by decide)

theorem duplicate_foldl_undo_stack (now : Nat) (uid : Int)
    (suffix : String) (opId : Nat) (l : List Task) :
    ∀ s : DupLoopState,
    ((l.foldl (duplicate_step now uid suffix opId) s).svc).undo_stack
      = s.svc.undo_stack := by
  induction l with
  | nil => intro s; rfl
  | cons t rest ih =>
    intro s
    simp only [List.foldl_cons]
    rw [ih]
    exact update_progress_undo_stack _ _ _ _ _ _

theorem duplicate_foldl_no_undo_data (now : Nat) (uid : Int)
    (suffix : String) (opId : Nat) (l : List Task) :
    ∀ (s : DupLoopState) (op : BulkOperation),
    s.svc.active_operations opId = some op → op.undo_data = none →
    ∃ op2, (l.foldl (duplicate_step now uid suffix opId)
        s).svc.active_operations opId = some op2 ∧
      op2.undo_data = none := by
  induction l with
  | nil => intro s op h1 h2; exact ⟨op, h1, h2⟩
  | cons t rest ih =>
    intro s op h1 h2
    simp only [List.foldl_cons]
    refine ih _ (op.applyProgress now (s.processed + 1) 0 none) ?_ ?_
    · exact update_progress_lookup _ _ _ _ _ _ _ h1
    · rw [applyProgress_undo_data]; exact h2

/-- C7 counterexample: duplicating a task succeeds (one copy is created)
yet nothing is recorded on the caller's undo stack — the tracked
operation keeps `undo_data = None` and a subsequent undo call fails. -/
theorem c7_counterexample :
    (duplicate_tasks emptyService storePair 0 user7 [1]
      " (Copy)").2.2.2.length = 1 ∧
    (duplicate_tasks emptyService storePair 0 user7 [1]
      " (Copy)").1.undo_stack 7 = [] ∧
    ((duplicate_tasks emptyService storePair 0 user7 [1]
      " (Copy)").1.active_operations 0).map (·.undo_data)
      = some none ∧
    (undo_operation
      (duplicate_tasks emptyService storePair 0 user7 [1] " (Copy)").1
      (duplicate_tasks emptyService storePair 0 user7 [1] " (Copy)").2.1
      user7 none).2.2 = false := by
  decide

/-- C7 (amended): after a Duplicate bulk operation no reversal payload
is captured at all — `duplicate_tasks` leaves every undo stack exactly
as it was and the tracked operation record keeps `undo_data = None`, so
a duplication cannot be undone through the undo engine. -/
theorem c7_duplicate_records_no_reversal (svc : ServiceState)
    (store : TaskStore) (now : Nat) (user : User)
    (task_ids : List Int) (suffix : String) :
    (duplicate_tasks svc store now user task_ids suffix).1.undo_stack
      = svc.undo_stack ∧
    ∃ op, (duplicate_tasks svc store now user task_ids
        suffix).1.active_operations svc.next_op_id = some op ∧
      op.undo_data = none := by
  constructor
  · unfold duplicate_tasks
    rw [duplicate_foldl_undo_stack]
    rfl
  · unfold duplicate_tasks
    have h1 : ((svc.create_bulk_operation now user.id .duplicate
        (task_ids.length : Int)).1).active_operations svc.next_op_id
        = some { id := svc.next_op_id, user_id := user.id,
                 operation_type := .duplicate, status := .pending,
                 total_items := (task_ids.length : Int),
                 created_at := now } := by
      simp [ServiceState.create_bulk_operation]
    exact duplicate_foldl_no_undo_data _ _ _ _ _ _ _ h1 rfl


theorem invalidCount_append_valid (p : List CreateItem) (d : TaskData) :
    invalidCount (p ++ [.valid d]) = invalidCount p := by
  simp [invalidCount, List.filter_append, CreateItem.isValid]

theorem invalidCount_append_invalid (p : List CreateItem) (m : String) :
    invalidCount (p ++ [.invalid m]) = invalidCount p + 1 := by
  simp [invalidCount, List.filter_append, CreateItem.isValid]

theorem invalidCount_le_length (p : List CreateItem) :
    invalidCount p ≤ p.length :=
  List.length_filter_le _ p

theorem createCounts_init (svc : ServiceState) (store : TaskStore)
    (now : Nat) (user : User) (tasks_data : List CreateItem) :
    CreateCounts svc.next_op_id (tasks_data.length : Int) store.tasks []
      (bulk_create_init_state svc store now user tasks_data) := by
  unfold CreateCounts bulk_create_init_state
    ServiceState.create_bulk_operation
  refine ⟨rfl, by simp [invalidCount], rfl, by simp, ?_⟩
  refine ⟨{ id := svc.next_op_id, user_id := user.id,
              operation_type := .create, status := .pending,
              total_items := (tasks_data.length : Int),
              created_at := now },
          ?_, rfl, rfl, by simp, by simp [invalidCount]⟩
  dsimp only
  rw [if_pos rfl]

theorem createCounts_step (now : Nat) (uid : Int) (opId : Nat)
    (total : Int) (base : List Task) (p : List CreateItem)
    (s : CreateLoopState) (a : CreateItem)
    (h : CreateCounts opId total base p s) :
    CreateCounts opId total base (p ++ [a])
      (bulk_create_step now uid opId s a) := by
  obtain ⟨hidx, hfail, hcre, hstore, op, hop, hid, htot, hproc, hfop⟩ := h
  cases a with
  | valid d =>
    refine ⟨by simp [bulk_create_step, hidx], ?_, ?_, ?_, ?_⟩
    · simp [bulk_create_step, hfail, invalidCount_append_valid]
    · simp [bulk_create_step, List.filter_append, CreateItem.isValid,
        hcre]
    · simp [bulk_create_step, hstore]
    · refine ⟨_, update_progress_lookup _ _ _ _ _ _ _ hop, ?_, ?_, ?_, ?_⟩
      · rw [(applyProgress_fields _ _ _ _ _).2.2.2, hid]
      · rw [(applyProgress_fields _ _ _ _ _).2.2.1, htot]
      · rw [(applyProgress_fields _ _ _ _ _).1, hidx]
        simp
      · rw [(applyProgress_fields _ _ _ _ _).2.1, hfail,
          invalidCount_append_valid]
  | invalid m =>
    refine ⟨by simp [bulk_create_step, hidx], ?_, ?_, ?_, ?_⟩
    · simp [bulk_create_step, hfail, invalidCount_append_invalid]
    · simp [bulk_create_step, List.filter_append, CreateItem.isValid,
        hcre]
    · simp [bulk_create_step, hstore]
    · refine ⟨_, update_progress_lookup _ _ _ _ _ _ _ hop, ?_, ?_, ?_, ?_⟩
      · rw [(applyProgress_fields _ _ _ _ _).2.2.2, hid]
      · rw [(applyProgress_fields _ _ _ _ _).2.2.1, htot]
      · rw [(applyProgress_fields _ _ _ _ _).1, hidx]
        simp
      · rw [(applyProgress_fields _ _ _ _ _).2.1, hfail,
          invalidCount_append_invalid]
        push_cast
        ring

theorem createCounts_foldl (now : Nat) (uid : Int) (opId : Nat)
    (total : Int) (base : List Task) (l : List CreateItem) :
    ∀ (p : List CreateItem) (s : CreateLoopState),
    CreateCounts opId total base p s →
    CreateCounts opId total base (p ++ l)
      (l.foldl (bulk_create_step now uid opId) s) := by
  induction l with
  | nil => intro p s h; simpa using h
  | cons a rest ih =>
    intro p s h
    have h2 := createCounts_step now uid opId total base p s a h
    have h3 := ih (p ++ [a]) _ h2
    simpa using h3

theorem bulk_create_final_counts (svc : ServiceState) (store : TaskStore)
    (now : Nat) (user : User) (tasks_data : List CreateItem) :
    CreateCounts svc.next_op_id (tasks_data.length : Int) store.tasks
      tasks_data (bulk_create_final svc store now user tasks_data) := by
  have h := createCounts_foldl now user.id svc.next_op_id
    (tasks_data.length : Int) store.tasks tasks_data []
    (bulk_create_init_state svc store now user tasks_data)
    (createCounts_init svc store now user tasks_data)
  simpa [bulk_create_final] using h

theorem scanl_head (f : CreateLoopState → CreateItem → CreateLoopState)
    (s : CreateLoopState) (l : List CreateItem) :
    (List.scanl f s l).head? = some s := by
  cases l <;> rfl

theorem createCounts_scanl (now : Nat) (uid : Int) (opId : Nat)
    (total : Int) (base : List Task) (l : List CreateItem) :
    ∀ (p : List CreateItem) (s : CreateLoopState),
    CreateCounts opId total base p s →
    ∀ x ∈ List.scanl (bulk_create_step now uid opId) s l,
    ∃ q : List CreateItem, q.length ≤ p.length + l.length ∧
      CreateCounts opId total base q x := by
  induction l with
  | nil =>
    intro p s h x hx
    rw [List.scanl_nil, List.mem_singleton] at hx
    subst hx
    exact ⟨p, by simp, h⟩
  | cons a rest ih =>
    intro p s h x hx
    rw [List.scanl_cons] at hx
    simp only [List.singleton_append, List.mem_cons] at hx
    rcases hx with hx | hx
    · subst hx
      exact ⟨p, by simp, h⟩
    · obtain ⟨q, hq1, hq2⟩ := ih (p ++ [a]) _
        (createCounts_step now uid opId total base p s a h) x hx
      refine ⟨q, ?_, hq2⟩
      simp only [List.length_append, List.length_cons,
        List.length_nil] at hq1 ⊢
      omega

theorem progress_percentage_mono (a b : BulkOperation)
    (htot : a.total_items = b.total_items) (h0 : 0 ≤ b.total_items)
    (hle : a.processed_items ≤ b.processed_items) :
    a.progress_percentage ≤ b.progress_percentage := by
  unfold BulkOperation.progress_percentage
  rw [htot]
  split_ifs with h
  · exact le_refl _
  · have hp : (0 : ℚ) < (b.total_items : ℚ) := by
      have h2 : 0 < b.total_items := lt_of_le_of_ne h0 (Ne.symm h)
      exact_mod_cast h2
    apply mul_le_mul_of_nonneg_right _ (by norm_num : (0:ℚ) ≤ 100)
    rw [div_le_div_iff_of_pos_right hp]
    exact_mod_cast hle

theorem progress_percentage_bounds (op : BulkOperation)
    (h0 : 0 ≤ op.processed_items)
    (h1 : op.processed_items ≤ op.total_items) :
    0 ≤ op.progress_percentage ∧ op.progress_percentage ≤ 100 := by
  unfold BulkOperation.progress_percentage
  split_ifs with h
  · norm_num
  · have hp : (0 : ℚ) < (op.total_items : ℚ) := by
      have h2 : 0 < op.total_items := by omega
      exact_mod_cast h2
    constructor
    · apply mul_nonneg (div_nonneg _ hp.le) (by norm_num)
      exact_mod_cast h0
    · have hdiv : (op.processed_items : ℚ) / (op.total_items : ℚ) ≤ 1 := by
        rw [div_le_one hp]
        exact_mod_cast h1
      calc (op.processed_items : ℚ) / (op.total_items : ℚ) * 100
          ≤ 1 * 100 := by
            exact mul_le_mul_of_nonneg_right hdiv (by norm_num)
        _ = 100 := by norm_num


theorem pct_chain_scanl (now : Nat) (uid : Int) (opId : Nat)
    (total : Int) (base : List Task) (htot : 0 ≤ total)
    (l : List CreateItem) :
    ∀ (p : List CreateItem) (s : CreateLoopState),
    CreateCounts opId total base p s →
    List.Chain' (fun x y => (traceOp opId x).progress_percentage ≤
      (traceOp opId y).progress_percentage)
      (List.scanl (bulk_create_step now uid opId) s l) := by
  induction l with
  | nil =>
    intro p s _
    rw [List.scanl_nil]
    exact List.chain'_singleton _
  | cons a rest ih =>
    intro p s h
    rw [List.scanl_cons, List.singleton_append]
    have hstep := createCounts_step now uid opId total base p s a h
    refine (List.chain'_cons').2 ⟨?_, ih (p ++ [a]) _ hstep⟩
    intro y hy
    rw [scanl_head] at hy
    simp only [Option.mem_def, Option.some_inj] at hy
    subst hy
    obtain ⟨-, -, -, -, op1, hop1, -, htot1, hproc1, -⟩ := h
    obtain ⟨-, -, -, -, op2, hop2, -, htot2, hproc2, -⟩ := hstep
    rw [traceOp, hop1, Option.getD_some, traceOp, hop2, Option.getD_some]
    apply progress_percentage_mono
    · rw [htot1, htot2]
    · rw [htot2]; exact htot
    · rw [hproc1, hproc2]
      simp only [List.length_append, List.length_cons, List.length_nil]
      exact_mod_cast Nat.le_succ _

theorem bulk_create_tasks_fatal (svc : ServiceState) (store : TaskStore)
    (now : Nat) (user : User) (tasks_data : List CreateItem)
    (msg : String) :
    bulk_create_tasks svc store now user tasks_data (some msg) =
      { svc := (bulk_create_final svc store now user
          tasks_data).svc.update_operation_progress now svc.next_op_id
          0 (tasks_data.length : Int) (some msg)
        store := store
        result := .error msg } := rfl

theorem bulk_create_tasks_commit (svc : ServiceState) (store : TaskStore)
    (now : Nat) (user : User) (tasks_data : List CreateItem)
    (opF : BulkOperation)
    (hop : (bulk_create_final svc store now user
        tasks_data).svc.active_operations svc.next_op_id = some opF) :
    bulk_create_tasks svc store now user tasks_data none =
      { svc := ServiceState.add_to_undo_stack
          { (bulk_create_final svc store now user tasks_data).svc with
            active_operations := fun i =>
              if i = svc.next_op_id then
                some { opF with undo_data := some (.deleteIds
                  ((bulk_create_final svc store now user
                      tasks_data).created.map (·.id))) }
              else (bulk_create_final svc store now user
                  tasks_data).svc.active_operations i }
          user.id
          { opF with undo_data := some (.deleteIds
            ((bulk_create_final svc store now user
                tasks_data).created.map (·.id))) }
        store := (bulk_create_final svc store now user tasks_data).store
        result := .ok (svc.next_op_id,
          (bulk_create_final svc store now user tasks_data).created) } := by
  unfold bulk_create_tasks
  dsimp only
  rw [show (bulk_create_final svc store now user
      tasks_data).svc.get_operation_status svc.next_op_id = some opF
    from hop]

theorem create_foldl_undo_stack (now : Nat) (uid : Int) (opId : Nat)
    (l : List CreateItem) :
    ∀ s : CreateLoopState,
    ((l.foldl (bulk_create_step now uid opId) s).svc).undo_stack
      = s.svc.undo_stack := by
  induction l with
  | nil => intro s; rfl
  | cons a rest ih =>
    intro s
    simp only [List.foldl_cons]
    rw [ih]
    cases a with
    | valid d => exact update_progress_undo_stack _ _ _ _ _ _
    | invalid m => exact update_progress_undo_stack _ _ _ _ _ _

theorem bulk_create_final_undo_stack (svc : ServiceState)
    (store : TaskStore) (now : Nat) (user : User)
    (tasks_data : List CreateItem) :
    (bulk_create_final svc store now user tasks_data).svc.undo_stack
      = svc.undo_stack := by
  unfold bulk_create_final
  rw [create_foldl_undo_stack]
  rfl

/-- C3 counterexample: after a transaction-fatal failure of a one-item
bulk create, the final progress update reports `processed_items = 0` and
`failed_items = 1`, so `failed_items ≤ processed_items` is violated. -/
theorem c3_counterexample :
    ((bulk_create_tasks emptyService emptyStore 0 user7
        [CreateItem.valid sampleA]
        (some "connection lost")).svc.active_operations 0).map
      (fun op => (op.processed_items, op.failed_items)) = some (0, 1) ∧
    ((bulk_create_tasks emptyService emptyStore 0 user7
        [CreateItem.valid sampleA]
        (some "connection lost")).svc.active_operations 0).map
      (fun op => decide (op.failed_items ≤ op.processed_items))
      = some false := by
  decide

/-- C3 (amended): at every point of the per-item loop of a bulk create,
`total_items`, `processed_items` and `failed_items` are non-negative and
`failed_items ≤ processed_items ≤ total_items` holds; but after a
transaction-fatal failure aborts the call, the final update sets
`processed_items = 0` and `failed_items = total_items`, so
`failed_items ≤ processed_items` fails whenever `total_items ≥ 1`
(non-negativity still holds there). -/
theorem c3_counter_invariants (svc : ServiceState) (store : TaskStore)
    (now : Nat) (user : User) (tasks_data : List CreateItem) :
    (∀ op ∈ bulk_create_op_trace svc store now user tasks_data,
      0 ≤ op.total_items ∧ 0 ≤ op.processed_items ∧
      0 ≤ op.failed_items ∧ op.failed_items ≤ op.processed_items ∧
      op.processed_items ≤ op.total_items) ∧
    (∀ msg : String, ∃ op,
      (bulk_create_tasks svc store now user tasks_data
        (some msg)).svc.active_operations svc.next_op_id = some op ∧
      op.processed_items = 0 ∧
      op.failed_items = (tasks_data.length : Int)) := by
  constructor
  · intro op hop
    unfold bulk_create_op_trace at hop
    rw [List.mem_map] at hop
    obtain ⟨x, hx, hxeq⟩ := hop
    unfold bulk_create_loop_states at hx
    obtain ⟨q, hqlen, hq⟩ := createCounts_scanl now user.id svc.next_op_id
      (tasks_data.length : Int) store.tasks tasks_data []
      (bulk_create_init_state svc store now user tasks_data)
      (createCounts_init svc store now user tasks_data) x hx
    obtain ⟨-, -, -, -, op2, hop2, -, htot, hproc, hfail⟩ := hq
    rw [← hxeq, traceOp, hop2, Option.getD_some]
    simp only [List.length_nil, Nat.zero_add] at hqlen
    have hinv := invalidCount_le_length q
    rw [htot, hproc, hfail]
    refine ⟨?_, ?_, ?_, ?_, ?_⟩
    · exact_mod_cast Nat.zero_le _
    · exact_mod_cast Nat.zero_le _
    · exact_mod_cast Nat.zero_le _
    · exact_mod_cast hinv
    · exact_mod_cast hqlen
  · intro msg
    obtain ⟨-, -, -, -, opF, hopF, -, -, -, -⟩ :=
      bulk_create_final_counts svc store now user tasks_data
    rw [bulk_create_tasks_fatal]
    refine ⟨_, update_progress_lookup _ _ _ _ _ _ _ hopF, ?_, ?_⟩
    · exact (applyProgress_fields _ _ _ _ _).1
    · exact (applyProgress_fields _ _ _ _ _).2.1

/-- C3 amended-claim witness: the fatal update of a concrete one-item
bulk create reports zero processed and one failed item. -/
theorem c3_counter_invariants_witness :
    ∃ op,
      (bulk_create_tasks emptyService emptyStore 0 user7
        [CreateItem.valid sampleA]
        (some "down")).svc.active_operations emptyService.next_op_id
        = some op ∧
      op.processed_items = 0 ∧
      op.failed_items = (([CreateItem.valid sampleA].length : Nat) : Int) :=
  (c3_counter_invariants emptyService emptyStore 0 user7
    [CreateItem.valid sampleA]).2 "down"

/-- C8 counterexample: in a one-item bulk create the tracked percentage
reaches `100` after the item is processed, but a transaction-fatal
failure at commit resets `processed_items` to `0` and the percentage
falls back to `0` — the sequence of percentages over the operation's
updates is not non-decreasing. -/
theorem c8_counterexample :
    (bulk_create_op_trace emptyService emptyStore 0 user7
      [CreateItem.valid sampleA]).map BulkOperation.progress_percentage
      = [0, 100] ∧
    ((bulk_create_tasks emptyService emptyStore 0 user7
        [CreateItem.valid sampleA]
        (some "connection lost")).svc.active_operations 0).map
      BulkOperation.progress_percentage = some 0 := by
  constructor
  · rw [show bulk_create_op_trace emptyService emptyStore 0 user7
        [CreateItem.valid sampleA] =
        [{ id := 0, user_id := 7, operation_type := .create,
           status := .pending, total_items := 1, created_at := 0 },
         { id := 0, user_id := 7, operation_type := .create,
           status := .completed, total_items := 1, processed_items := 1,
           created_at := 0, completed_at := some 0 }] from by decide]
    simp [BulkOperation.progress_percentage]
  · rw [show (bulk_create_tasks emptyService emptyStore 0 user7
        [CreateItem.valid sampleA]
        (some "connection lost")).svc.active_operations 0 =
        some { id := 0, user_id := 7, operation_type := .create,
               status := .failed, total_items := 1,
               processed_items := 0, failed_items := 1, created_at := 0,
               completed_at := some 0,
               error_message := some "connection lost" } from by decide]
    simp [BulkOperation.progress_percentage]

/-- C8 (amended): `progress_percentage` always lies in `[0, 100]`, and
over the successive per-item progress updates of a bulk create (from
creation onward) it is monotonically non-decreasing; monotonicity does
not extend across a transaction-fatal failure, whose final update resets
`processed_items` to `0` and drops the percentage to `0`. -/
theorem c8_percentage_trace (svc : ServiceState) (store : TaskStore)
    (now : Nat) (user : User) (tasks_data : List CreateItem) :
    (∀ op ∈ bulk_create_op_trace svc store now user tasks_data,
      0 ≤ op.progress_percentage ∧ op.progress_percentage ≤ 100) ∧
    List.Chain' (fun a b =>
      a.progress_percentage ≤ b.progress_percentage)
      (bulk_create_op_trace svc store now user tasks_data) ∧
    (∀ msg : String, 1 ≤ tasks_data.length → ∃ op,
      (bulk_create_tasks svc store now user tasks_data
        (some msg)).svc.active_operations svc.next_op_id = some op ∧
      op.progress_percentage = 0) := by
  refine ⟨?_, ?_, ?_⟩
  · intro op hop
    unfold bulk_create_op_trace at hop
    rw [List.mem_map] at hop
    obtain ⟨x, hx, hxeq⟩ := hop
    unfold bulk_create_loop_states at hx
    obtain ⟨q, hqlen, hq⟩ := createCounts_scanl now user.id svc.next_op_id
      (tasks_data.length : Int) store.tasks tasks_data []
      (bulk_create_init_state svc store now user tasks_data)
      (createCounts_init svc store now user tasks_data) x hx
    obtain ⟨-, -, -, -, op2, hop2, -, htot, hproc, -⟩ := hq
    rw [← hxeq, traceOp, hop2, Option.getD_some]
    simp only [List.length_nil, Nat.zero_add] at hqlen
    apply progress_percentage_bounds
    · rw [hproc]; exact_mod_cast Nat.zero_le _
    · rw [hproc, htot]; exact_mod_cast hqlen
  · unfold bulk_create_op_trace bulk_create_loop_states
    rw [List.chain'_map]
    exact pct_chain_scanl now user.id svc.next_op_id
      (tasks_data.length : Int) store.tasks
      (by exact_mod_cast Nat.zero_le _) tasks_data []
      (bulk_create_init_state svc store now user tasks_data)
      (createCounts_init svc store now user tasks_data)
  · intro msg hlen
    obtain ⟨-, -, -, -, opF, hopF, -, htotF, -, -⟩ :=
      bulk_create_final_counts svc store now user tasks_data
    rw [bulk_create_tasks_fatal]
    refine ⟨_, update_progress_lookup _ _ _ _ _ _ _ hopF, ?_⟩
    unfold BulkOperation.progress_percentage
    rw [(applyProgress_fields _ _ _ _ _).1,
      (applyProgress_fields _ _ _ _ _).2.2.1, htotF]
    rw [if_neg (by exact_mod_cast Nat.one_le_iff_ne_zero.mp hlen)]
    simp

/-- C8 amended-claim witness: the concrete fatal one-item run ends with
percentage `0`. -/
theorem c8_percentage_trace_witness :
    ∃ op,
      (bulk_create_tasks emptyService emptyStore 0 user7
        [CreateItem.valid sampleA]
        (some "down")).svc.active_operations emptyService.next_op_id
        = some op ∧
      op.progress_percentage = 0 :=
  (c8_percentage_trace emptyService emptyStore 0 user7
    [CreateItem.valid sampleA]).2.2 "down" (by decide)


theorem applyProgress_complete (op : BulkOperation) (now : Nat)
    (p f : Int) (h : op.total_items ≤ p) :
    op.applyProgress now p f none =
      { op with processed_items := p, failed_items := f,
                status := .completed, completed_at := some now } := by
  unfold BulkOperation.applyProgress
  simp [pyTruthy, h]

theorem applyProgress_error_status (op : BulkOperation) (now : Nat)
    (p f : Int) (m : String) (hm : m ≠ "") :
    op.applyProgress now p f (some m) =
      { op with processed_items := p, failed_items := f,
                status := .failed, error_message := some m,
                completed_at := some now } := by
  unfold BulkOperation.applyProgress
  simp [pyTruthy, hm]

theorem create_step_lookup (now : Nat) (uid : Int) (opId : Nat)
    (s : CreateLoopState) (a : CreateItem) (op : BulkOperation)
    (hop : s.svc.active_operations opId = some op) :
    (bulk_create_step now uid opId s a).svc.active_operations opId =
      some (op.applyProgress now ((s.idx : Int) + 1)
        (match a with
          | .valid _ => s.failed_items
          | .invalid _ => s.failed_items + 1)
        (match a with
          | .valid _ => none
          | .invalid m => some m)) := by
  cases a with
  | valid d => exact update_progress_lookup _ _ _ _ _ _ _ hop
  | invalid m => exact update_progress_lookup _ _ _ _ _ _ _ hop

theorem bulk_create_last_status (svc : ServiceState) (store : TaskStore)
    (now : Nat) (user : User) (init0 : List CreateItem) (a : CreateItem) :
    ∃ opF,
      (bulk_create_final svc store now user
        (init0 ++ [a])).svc.active_operations svc.next_op_id = some opF ∧
      (∀ d, a = .valid d → opF.status = .completed) ∧
      (∀ m, a = .invalid m → m ≠ "" →
        opF.status = .failed ∧ opF.error_message = some m) := by
  have hc := createCounts_foldl now user.id svc.next_op_id
    (((init0 ++ [a]).length : Nat) : Int) store.tasks init0 []
    (bulk_create_init_state svc store now user (init0 ++ [a]))
    (createCounts_init svc store now user (init0 ++ [a]))
  rw [List.nil_append] at hc
  obtain ⟨hidx, -, -, -, op1, hop1, -, htot1, hproc1, -⟩ := hc
  have hfin : bulk_create_final svc store now user (init0 ++ [a]) =
      bulk_create_step now user.id svc.next_op_id
        (init0.foldl (bulk_create_step now user.id svc.next_op_id)
          (bulk_create_init_state svc store now user (init0 ++ [a]))) a := by
    unfold bulk_create_final
    rw [List.foldl_append]
    rfl
  rw [hfin]
  have htle : op1.total_items ≤
      ((((init0.foldl (bulk_create_step now user.id svc.next_op_id)
        (bulk_create_init_state svc store now user
          (init0 ++ [a]))).idx : Nat)) : Int) + 1 := by
    rw [hidx, htot1]
    simp only [List.length_append, List.length_cons, List.length_nil]
    push_cast
    omega
  refine ⟨_, create_step_lookup now user.id svc.next_op_id _ a op1 hop1,
    ?_, ?_⟩
  · intro d heq
    subst heq
    rw [applyProgress_complete _ _ _ _ htle]
  · intro m heq hm
    subst heq
    rw [applyProgress_error_status _ _ _ _ _ hm]
    exact ⟨rfl, rfl⟩

/-- C2 counterexample: a two-item bulk create whose second (final) item
fails ends with status `Failed` — not `Completed` — even though the
first item was created and committed and no transaction-fatal error
occurred. -/
theorem c2_counterexample :
    ((bulk_create_tasks emptyService emptyStore 0 user7
        [CreateItem.valid sampleA, CreateItem.invalid "boom"]
        none).svc.active_operations 0).map
      (fun op => (op.status, op.processed_items, op.failed_items,
        op.error_message))
      = some (.failed, 2, 1, some "boom") ∧
    (bulk_create_tasks emptyService emptyStore 0 user7
      [CreateItem.valid sampleA, CreateItem.invalid "boom"]
      none).store.tasks.map (·.title) = ["A"] ∧
    ((bulk_create_tasks emptyService emptyStore 0 user7
        [CreateItem.valid sampleA, CreateItem.invalid "boom"]
        none).result.toOption).map (fun r => (r.2.map (·.title)))
      = some ["A"] := by
  decide

/-- C2 (amended): per-item failures inside `bulk_create_tasks` are
caught individually — `failed_items` counts exactly the failing items,
every successful item is committed and the call returns normally — but
the final status is `Completed` only when the *last* item succeeds
(then `failed_items` is nonzero whenever some item failed); if the last
item fails the operation ends `Failed` with that item's error message
even though the successful items are still committed. A
transaction-fatal commit error instead rolls the store back, reports
the operation with `processed_items = 0`, and re-raises. -/
theorem c2_partial_failure_policy (svc : ServiceState)
    (store : TaskStore) (now : Nat) (user : User)
    (tasks_data : List CreateItem) :
    (∃ op : BulkOperation, ∃ created : List Task,
      (bulk_create_tasks svc store now user tasks_data none).result
        = .ok (svc.next_op_id, created) ∧
      (bulk_create_tasks svc store now user
        tasks_data none).svc.active_operations svc.next_op_id
        = some op ∧
      (bulk_create_tasks svc store now user tasks_data none).store.tasks
        = store.tasks ++ created ∧
      created.length = (tasks_data.filter (·.isValid)).length ∧
      op.failed_items = (invalidCount tasks_data : Int) ∧
      ((∃ m, CreateItem.invalid m ∈ tasks_data) → 0 < op.failed_items) ∧
      (∀ d, tasks_data.getLast? = some (.valid d) →
        op.status = .completed) ∧
      (∀ m, m ≠ "" → tasks_data.getLast? = some (.invalid m) →
        op.status = .failed ∧ op.error_message = some m)) ∧
    (∀ msg : String,
      (bulk_create_tasks svc store now user tasks_data (some msg)).store
        = store ∧
      (bulk_create_tasks svc store now user tasks_data (some msg)).result
        = .error msg ∧
      ∃ opf, (bulk_create_tasks svc store now user tasks_data
          (some msg)).svc.active_operations svc.next_op_id = some opf ∧
        opf.processed_items = 0) := by
  constructor
  · obtain ⟨hidx, hfail, hcre, hstore, opF, hopF, hid, htot, hproc,
      hfop⟩ := bulk_create_final_counts svc store now user tasks_data
    have hcommit := bulk_create_tasks_commit svc store now user
      tasks_data opF hopF
    refine ⟨{ opF with undo_data := some (.deleteIds
        ((bulk_create_final svc store now user
          tasks_data).created.map (·.id))) },
      (bulk_create_final svc store now user tasks_data).created,
      ?_, ?_, ?_, hcre, hfop, ?_, ?_, ?_⟩
    · rw [hcommit]
    · rw [hcommit]
      simp [ServiceState.add_to_undo_stack]
    · rw [hcommit]
      exact hstore
    · rintro ⟨m, hm⟩
      have hmem : CreateItem.invalid m ∈
          tasks_data.filter (fun i => !i.isValid) :=
        List.mem_filter.2 ⟨hm, by simp [CreateItem.isValid]⟩
      have hpos : 0 < invalidCount tasks_data := by
        have hne2 : tasks_data.filter (fun i => !i.isValid) ≠ [] := by
          intro h0
          rw [h0] at hmem
          simp at hmem
        exact List.length_pos.2 hne2
      exact lt_of_lt_of_eq (by exact_mod_cast hpos) hfop.symm
    · intro d hlast
      have hne : tasks_data ≠ [] := by
        intro h0
        rw [h0] at hlast
        simp at hlast
      have hdecomp : tasks_data.dropLast ++ [CreateItem.valid d]
          = tasks_data := by
        have h1 := List.dropLast_append_getLast hne
        rw [List.getLast?_eq_getLast _ hne, Option.some_inj] at hlast
        rw [hlast] at h1
        exact h1
      obtain ⟨opG, hopG, hval, -⟩ := bulk_create_last_status svc store
        now user tasks_data.dropLast (CreateItem.valid d)
      rw [hdecomp] at hopG
      have heq : opF = opG := by
        rw [hopF] at hopG
        exact Option.some_inj.1 hopG
      have := hval d rfl
      rw [← heq] at this
      exact this
    · intro m hm hlast
      have hne : tasks_data ≠ [] := by
        intro h0
        rw [h0] at hlast
        simp at hlast
      have hdecomp : tasks_data.dropLast ++ [CreateItem.invalid m]
          = tasks_data := by
        have h1 := List.dropLast_append_getLast hne
        rw [List.getLast?_eq_getLast _ hne, Option.some_inj] at hlast
        rw [hlast] at h1
        exact h1
      obtain ⟨opG, hopG, -, hinval⟩ := bulk_create_last_status svc store
        now user tasks_data.dropLast (CreateItem.invalid m)
      rw [hdecomp] at hopG
      have heq : opF = opG := by
        rw [hopF] at hopG
        exact Option.some_inj.1 hopG
      have := hinval m rfl hm
      rw [← heq] at this
      exact this
  · intro msg
    obtain ⟨-, -, -, -, opF, hopF, -, -, -, -⟩ :=
      bulk_create_final_counts svc store now user tasks_data
    rw [bulk_create_tasks_fatal]
    refine ⟨rfl, rfl, _, update_progress_lookup _ _ _ _ _ _ _ hopF, ?_⟩
    exact (applyProgress_fields _ _ _ _ _).1

/-- C2 amended-claim witness: the concrete mixed batch ends `Failed`
with the committed first item and one failed item. -/
theorem c2_partial_failure_policy_witness :
    (bulk_create_tasks emptyService emptyStore 0 user7
      [CreateItem.valid sampleA, CreateItem.invalid "boom"]
      (some "down")).store = emptyStore ∧
    (bulk_create_tasks emptyService emptyStore 0 user7
      [CreateItem.valid sampleA, CreateItem.invalid "boom"]
      (some "down")).result = .error "down" ∧
    ∃ opf, (bulk_create_tasks emptyService emptyStore 0 user7
        [CreateItem.valid sampleA, CreateItem.invalid "boom"]
        (some "down")).svc.active_operations emptyService.next_op_id
        = some opf ∧
      opf.processed_items = 0 :=
  (c2_partial_failure_policy emptyService emptyStore 0 user7
    [CreateItem.valid sampleA, CreateItem.invalid "boom"]).2 "down"


theorem pushBounded_ne_nil (stack : List BulkOperation)
    (op : BulkOperation) : pushBounded stack op ≠ [] := by
  unfold pushBounded
  dsimp only
  split
  · rename_i h
    intro h2
    simp [max_undo_operations] at h
    have h3 : (stack ++ [op]).tail.length = 0 := by rw [h2]; rfl
    rw [List.length_tail, List.length_append] at h3
    have h4 : ([op] : List BulkOperation).length = 1 := rfl
    rw [h4] at h3
    omega
  · simp

theorem mem_pushBounded_self (stack : List BulkOperation)
    (op : BulkOperation) : op ∈ pushBounded stack op := by
  unfold pushBounded
  dsimp only
  split
  · rename_i h
    cases stack with
    | nil => simp [max_undo_operations] at h
    | cons b rest =>
      rw [List.cons_append, List.tail_cons]
      simp
  · simp

theorem add_to_undo_stack_self (svc : ServiceState) (u : Int)
    (op : BulkOperation) :
    (svc.add_to_undo_stack u op).undo_stack u
      = pushBounded (svc.undo_stack u) op := by
  unfold ServiceState.add_to_undo_stack
  dsimp only
  rw [if_pos rfl]

theorem find_append_last (pre : List BulkOperation) (op : BulkOperation)
    (n : Nat) (hn : op.id = n) (h : ∀ o ∈ pre, o.id ≠ n) :
    (pre ++ [op]).find? (fun o => o.id == n) = some op := by
  induction pre with
  | nil => simp [List.find?, hn]
  | cons b rest ih =>
    have hb : (b.id == n) = false := by
      simpa using h b (List.mem_cons_self _ _)
    rw [List.cons_append]
    simp only [List.find?, hb]
    exact ih (fun o ho => h o (List.mem_cons_of_mem _ ho))

theorem find_pushBounded (stack : List BulkOperation)
    (op : BulkOperation) (n : Nat) (hn : op.id = n)
    (hfresh : ∀ o ∈ stack, o.id ≠ n) :
    (pushBounded stack op).find? (fun o => o.id == n) = some op := by
  unfold pushBounded
  dsimp only
  split
  · rename_i h
    cases stack with
    | nil => simp [max_undo_operations] at h
    | cons b rest =>
      rw [List.cons_append, List.tail_cons]
      exact find_append_last rest op n hn
        (fun o ho => hfresh o (List.mem_cons_of_mem _ ho))
  · exact find_append_last stack op n hn hfresh

/-- C4: a successful bulk create of N tasks pushes an undo entry
recording exactly the N created ids, and undoing that operation returns
`true` and leaves the store without any task carrying one of those ids.
`hfresh` states the freshness of the generated operation id over the
entries already on the caller's stack (guaranteed by `uuid4` in the
source). -/
theorem c4_create_undo_roundtrip (svc : ServiceState)
    (store : TaskStore) (now : Nat) (user : User)
    (tasks_data : List CreateItem)
    (hvalid : ∀ i ∈ tasks_data, i.isValid = true)
    (hfresh : ∀ o ∈ svc.undo_stack user.id, o.id ≠ svc.next_op_id) :
    ∃ created : List Task, ∃ entry : BulkOperation,
      (bulk_create_tasks svc store now user tasks_data none).result
        = .ok (svc.next_op_id, created) ∧
      created.length = tasks_data.length ∧
      entry ∈ (bulk_create_tasks svc store now user
        tasks_data none).svc.undo_stack user.id ∧
      entry.id = svc.next_op_id ∧
      entry.undo_data = some (.deleteIds (created.map (·.id))) ∧
      (undo_operation
        (bulk_create_tasks svc store now user tasks_data none).svc
        (bulk_create_tasks svc store now user tasks_data none).store
        user (some svc.next_op_id)).2.2 = true ∧
      (∀ t ∈ (undo_operation
          (bulk_create_tasks svc store now user tasks_data none).svc
          (bulk_create_tasks svc store now user tasks_data none).store
          user (some svc.next_op_id)).2.1.tasks,
        t.id ∉ created.map (·.id)) := by
  obtain ⟨hidx, hfail, hcre, hstore, opF, hopF, hid, htot, hproc,
    hfop⟩ := bulk_create_final_counts svc store now user tasks_data
  have hcommit := bulk_create_tasks_commit svc store now user
    tasks_data opF hopF
  have hstack2 : (bulk_create_tasks svc store now user tasks_data
      none).svc.undo_stack user.id
      = pushBounded (svc.undo_stack user.id)
        { opF with undo_data := some (.deleteIds
          ((bulk_create_final svc store now user
            tasks_data).created.map (·.id))) } := by
    rw [hcommit, add_to_undo_stack_self]
    have h2 := congrFun
      (bulk_create_final_undo_stack svc store now user tasks_data)
      user.id
    show pushBounded ((bulk_create_final svc store now user
      tasks_data).svc.undo_stack user.id) _ = _
    rw [h2]
  have hfind : ((bulk_create_tasks svc store now user tasks_data
      none).svc.undo_stack user.id).find?
        (fun o => o.id == svc.next_op_id)
      = some { opF with undo_data := some (.deleteIds
          ((bulk_create_final svc store now user
            tasks_data).created.map (·.id))) } := by
    rw [hstack2]
    exact find_pushBounded _ _ _ hid hfresh
  have hne : ¬ ((bulk_create_tasks svc store now user tasks_data
      none).svc.undo_stack user.id).isEmpty = true := by
    rw [hstack2]
    intro h0
    exact pushBounded_ne_nil _ _ (by simpa using h0)
  have hundo_pair : (undo_operation
      (bulk_create_tasks svc store now user tasks_data none).svc
      (bulk_create_tasks svc store now user tasks_data none).store
      user (some svc.next_op_id)).2
      = (applyUndo
          (bulk_create_tasks svc store now user tasks_data none).store
          (.deleteIds ((bulk_create_final svc store now user
            tasks_data).created.map (·.id))), true) := by
    unfold undo_operation
    dsimp only
    rw [if_neg hne, hfind]
  refine ⟨(bulk_create_final svc store now user tasks_data).created,
    { opF with undo_data := some (.deleteIds
      ((bulk_create_final svc store now user
        tasks_data).created.map (·.id))) },
    ?_, ?_, ?_, hid, rfl, ?_, ?_⟩
  · rw [hcommit]
  · rw [hcre, List.filter_eq_self.mpr hvalid]
  · rw [hcommit, add_to_undo_stack_self]
    exact mem_pushBounded_self _ _
  · rw [hundo_pair]
  · intro t ht
    rw [hundo_pair] at ht
    simp only [applyUndo] at ht
    have h3 := (List.mem_filter.1 ht).2
    simpa using h3


/-- C4 witness: creating two concrete tasks and undoing the recorded
operation succeeds. -/
theorem c4_create_undo_roundtrip_witness :
    (undo_operation
      (bulk_create_tasks emptyService emptyStore 0 user7
        [CreateItem.valid sampleA, CreateItem.valid sampleB] none).svc
      (bulk_create_tasks emptyService emptyStore 0 user7
        [CreateItem.valid sampleA, CreateItem.valid sampleB] none).store
      user7 (some emptyService.next_op_id)).2.2 = true := by
  obtain ⟨c, e, -, -, -, -, -, h6, -⟩ :=
    c4_create_undo_roundtrip emptyService emptyStore 0 user7
      [CreateItem.valid sampleA, CreateItem.valid sampleB]
      (by decide)
      (by intro o ho; simp [emptyService] at ho)
  exact h6

theorem delete_foldl_store (now : Nat) (opId : Nat) (l : List Task) :
    ∀ s : DeleteLoopState,
    ((l.foldl (bulk_delete_step now opId) s).store).tasks
      = l.foldl (fun ts t => ts.filter (fun u => !(u.id == t.id)))
          s.store.tasks := by
  induction l with
  | nil => intro s; rfl
  | cons a rest ih =>
    intro s
    simp only [List.foldl_cons]
    rw [ih]
    rfl

theorem foldl_filter_by_id (l : List Task) :
    ∀ ts : List Task,
    l.foldl (fun ts t => ts.filter (fun u => !(u.id == t.id))) ts
      = ts.filter (fun u => l.all (fun t => !(u.id == t.id))) := by
  induction l with
  | nil => intro ts; simp
  | cons a rest ih =>
    intro ts
    simp only [List.foldl_cons]
    rw [ih, List.filter_filter]
    apply List.filter_congr
    intro u hu
    rw [List.all_cons, Bool.and_comm]

theorem delete_foldl_processed (now : Nat) (opId : Nat) (l : List Task) :
    ∀ (s : DeleteLoopState) (op : BulkOperation),
    s.svc.active_operations opId = some op →
    op.processed_items = (s.deleted.length : Int) →
    ∃ op2,
      ((l.foldl (bulk_delete_step now opId) s).svc).active_operations
        opId = some op2 ∧
      op2.processed_items = ((s.deleted.length + l.length : Nat) : Int) := by
  induction l with
  | nil =>
    intro s op h1 h2
    exact ⟨op, h1, by simpa using h2⟩
  | cons a rest ih =>
    intro s op h1 h2
    simp only [List.foldl_cons]
    have hlook : ((bulk_delete_step now opId s a).svc).active_operations
        opId = some (op.applyProgress now
          (((s.deleted ++ [snapshotOf a]).length : Nat) : Int) 0 none) :=
      update_progress_lookup _ _ _ _ _ _ _ h1
    obtain ⟨op2, hop2, hp2⟩ := ih (bulk_delete_step now opId s a) _
      hlook ((applyProgress_fields _ _ _ _ _).1)
    refine ⟨op2, hop2, ?_⟩
    rw [hp2]
    have h5 : (s.deleted ++ [snapshotOf a]).length + rest.length
        = s.deleted.length + (a :: rest).length := by
      simp only [List.length_append, List.length_cons, List.length_nil]
      omega
    exact_mod_cast h5

theorem bulk_delete_tasks_eq (svc : ServiceState) (store : TaskStore)
    (now : Nat) (user : User) (task_ids : List Int)
    (opF : BulkOperation)
    (hop : (bulk_delete_final svc store now user
        task_ids).svc.active_operations svc.next_op_id = some opF) :
    bulk_delete_tasks svc store now user task_ids =
      (ServiceState.add_to_undo_stack
        { (bulk_delete_final svc store now user task_ids).svc with
          active_operations := fun i =>
            if i = svc.next_op_id then
              some { opF with undo_data := some (.createTasks
                (bulk_delete_final svc store now user task_ids).deleted) }
            else (bulk_delete_final svc store now user
                task_ids).svc.active_operations i }
        user.id
        { opF with undo_data := some (.createTasks
          (bulk_delete_final svc store now user task_ids).deleted) },
       (bulk_delete_final svc store now user task_ids).store,
       svc.next_op_id) := by
  unfold bulk_delete_tasks
  dsimp only
  rw [show (bulk_delete_final svc store now user
      task_ids).svc.get_operation_status svc.next_op_id = some opF
    from hop]


theorem add_to_undo_stack_active (svc : ServiceState) (u : Int)
    (op : BulkOperation) :
    (svc.add_to_undo_stack u op).active_operations
      = svc.active_operations := rfl

/-- C6: for a non-admin caller, a bulk delete whose target ids include
foreign tasks runs to completion, leaves every foreign task (the very
same record) in the store, and counts only the caller's own matching
tasks in `processed_items`; an admin caller's target set is not filtered
by ownership. `hnd` is the store's primary-key uniqueness. -/
theorem c6_ownership_scoping (svc : ServiceState) (store : TaskStore)
    (now : Nat) (user : User) (task_ids : List Int)
    (hnd : (store.tasks.map (·.id)).Nodup) :
    (user.role ≠ "admin" →
      (∀ t ∈ store.tasks, t.user_id ≠ user.id →
        t ∈ (bulk_delete_tasks svc store now user task_ids).2.1.tasks) ∧
      ∃ op, (bulk_delete_tasks svc store now user
          task_ids).1.active_operations svc.next_op_id = some op ∧
        op.processed_items = ((store.tasks.filter (fun t =>
          task_ids.contains t.id && t.user_id == user.id)).length :
            Int)) ∧
    (user.role = "admin" →
      (bulk_delete_tasks svc store now user task_ids).2.1.tasks
        = store.tasks.filter (fun t => !(task_ids.contains t.id))) := by
  have hinit : ((svc.create_bulk_operation now user.id .delete
      (task_ids.length : Int)).1).active_operations svc.next_op_id
      = some { id := svc.next_op_id, user_id := user.id,
               operation_type := .delete, status := .pending,
               total_items := (task_ids.length : Int),
               created_at := now } := by
    simp [ServiceState.create_bulk_operation]
  obtain ⟨opD, hopD, hprocD⟩ := delete_foldl_processed now svc.next_op_id
    (query_target_tasks store user task_ids)
    { svc := (svc.create_bulk_operation now user.id .delete
        (task_ids.length : Int)).1, store := store, deleted := [] }
    _ hinit (by simp)
  have hopD2 : (bulk_delete_final svc store now user
      task_ids).svc.active_operations svc.next_op_id = some opD := hopD
  have heq := bulk_delete_tasks_eq svc store now user task_ids opD hopD2
  have hstoreR : (bulk_delete_tasks svc store now user
      task_ids).2.1.tasks
      = store.tasks.filter (fun u =>
          (query_target_tasks store user task_ids).all
            (fun t => !(u.id == t.id))) := by
    rw [heq]
    show (bulk_delete_final svc store now user task_ids).store.tasks = _
    have h2 : (bulk_delete_final svc store now user task_ids).store.tasks
        = (query_target_tasks store user task_ids).foldl
            (fun ts t => ts.filter (fun u => !(u.id == t.id)))
            store.tasks :=
      delete_foldl_store now svc.next_op_id
        (query_target_tasks store user task_ids)
        { svc := (svc.create_bulk_operation now user.id .delete
            (task_ids.length : Int)).1, store := store, deleted := [] }
    rw [h2, foldl_filter_by_id]
  have hlookR : (bulk_delete_tasks svc store now user
      task_ids).1.active_operations svc.next_op_id
      = some { opD with undo_data := some (.createTasks
          (bulk_delete_final svc store now user task_ids).deleted) } := by
    rw [heq]
    dsimp only
    rw [add_to_undo_stack_active]
    dsimp only
    rw [if_pos rfl]
  constructor
  · intro hrole
    have hbeq : (user.role == "admin") = false := by simpa using hrole
    constructor
    · intro t ht ht2
      rw [hstoreR]
      refine List.mem_filter.2 ⟨ht, ?_⟩
      rw [List.all_eq_true]
      intro x hx
      obtain ⟨hx1, hx2⟩ := List.mem_filter.1 hx
      rw [hbeq, Bool.false_or, Bool.and_eq_true] at hx2
      obtain ⟨-, hx3⟩ := hx2
      have hx4 : x.user_id = user.id := by simpa using hx3
      simp only [Bool.not_eq_true', beq_eq_false_iff_ne]
      intro hid
      have hteq := List.inj_on_of_nodup_map hnd ht hx1 hid
      rw [hteq] at ht2
      exact ht2 hx4
    · refine ⟨_, hlookR, ?_⟩
      have hq : query_target_tasks store user task_ids
          = store.tasks.filter (fun t =>
              task_ids.contains t.id && t.user_id == user.id) := by
        unfold query_target_tasks
        apply List.filter_congr
        intro t ht
        rw [hbeq, Bool.false_or]
      show opD.processed_items = _
      rw [hprocD, hq]
      simp
  · intro hrole
    have hbeq : (user.role == "admin") = true := by simp [hrole]
    rw [hstoreR]
    apply List.filter_congr
    intro u hu
    apply Bool.coe_iff_coe.mp
    constructor
    · intro hall
      simp only [Bool.not_eq_true']
      by_contra hc
      rw [Bool.not_eq_false] at hc
      have hum : u ∈ query_target_tasks store user task_ids := by
        unfold query_target_tasks
        refine List.mem_filter.2 ⟨hu, ?_⟩
        rw [hbeq, hc]
        rfl
      have h7 := List.all_eq_true.mp hall u hum
      simp at h7
    · intro hnc
      have hnc2 : task_ids.contains u.id = false := by simpa using hnc
      rw [List.all_eq_true]
      intro x hx
      obtain ⟨hx1, hx2⟩ := List.mem_filter.1 hx
      rw [Bool.and_eq_true] at hx2
      have hxc : task_ids.contains x.id = true := hx2.1
      simp only [Bool.not_eq_true', beq_eq_false_iff_ne]
      intro hid
      rw [← hid] at hxc
      rw [hxc] at hnc2
      cases hnc2

/-- C6 witness: with the concrete two-row store, the non-admin delete of
ids 1 and 2 keeps the foreign row and counts one processed item. -/
theorem c6_ownership_scoping_witness :
    taskForeign ∈ (bulk_delete_tasks emptyService storePair 0 user7
      [1, 2]).2.1.tasks ∧
    ∃ op, (bulk_delete_tasks emptyService storePair 0 user7
        [1, 2]).1.active_operations emptyService.next_op_id = some op ∧
      op.processed_items = ((storePair.tasks.filter (fun t =>
        [(1 : Int), 2].contains t.id && t.user_id == user7.id)).length :
          Int) := by
  obtain ⟨h1, h2⟩ := (c6_ownership_scoping emptyService storePair 0
    user7 [1, 2] (by decide)).1 (by decide)
  exact ⟨h1 taskForeign (by decide) (by decide), h2⟩

end TodoBulk
